import Mathlib

/- Shallow embedding of the chess-puzzle sampling core of the repository:
   `src/samplers/base.py` (BaseSampler: _create_dspy_example,
   _create_examples_from_df, analyze_distribution) and
   `src/samplers/random.py` (RandomSampler.create_sample,
   analyze_sample_distribution).

   The python-chess Position Engine and the pandas `DataFrame.sample`
   routine are external collaborators; they are embedded as records of
   operations together with the contracts the code relies on
   (`ChessEngine`, `PandasSample`).  Python exceptions are embedded as
   `Except String`; `None` as `Option`. -/

/-- Key of the `possible_moves` mapping of an emitted example.  The
multi-ply builder (`base.py` line 57) uses Python `int` keys while the
single-ply sampler (`random.py` line 36) uses decimal-string keys; both
key shapes live in this one type so the two code paths can be compared. -/
inductive Key where
  | intK : Nat → Key
  | strK : String → Key
deriving DecidableEq

/-- The `metadata` dictionary attached to an example.  It is a dynamic
Python dict; the optional fields model keys that only some call sites
insert (`moves`/`initial_fen` by the builder, `opponent_move` by the
single-ply sampler, `control_group` only when the label is truthy). -/
structure Metadata where
  rating : ℚ
  popularity : ℚ
  rating_deviation : ℚ
  themes : String
  moves : Option (List String) := none
  initial_fen : String
  opponent_move : Option String := none
  control_group : Option String := none
deriving DecidableEq

/-- A `dspy.Example` as constructed by either code path.  `move_index`
is only set by the multi-ply builder. -/
structure Example where
  puzzle : String
  possible_moves : List (Key × String)
  expected_move : String
  puzzle_id : String
  metadata : Metadata
  move_index : Option Nat := none
deriving DecidableEq

/-- A row of the raw puzzle DataFrame consumed by
`BaseSampler._create_dspy_example` (columns accessed in `base.py`). -/
structure PuzzleRow where
  PuzzleId : String
  FEN : String
  Moves : String
  Rating : ℚ
  Popularity : ℚ
  RatingDeviation : ℚ
  Themes : String
deriving DecidableEq

/-- A row of the single-move puzzle DataFrame consumed by
`RandomSampler.create_sample` (columns accessed in `random.py`). -/
structure SingleMoveRow where
  PuzzleId : String
  FEN : String
  puzzle_fen : String
  expected_move : String
  opponent_move : String
  Rating : ℚ
  Popularity : ℚ
  RatingDeviation : ℚ
  Themes : String
deriving DecidableEq

/-- Helper for `pySplit`: walks the character list keeping the current
(reversed) token in `acc`; whitespace runs separate tokens and empty
tokens are dropped, exactly the semantics of Python `str.split()`. -/
def pySplitChars : List Char → List Char → List String
  | acc, [] => if acc = [] then [] else [String.mk acc.reverse]
  | acc, c :: cs =>
    if c.isWhitespace then
      if acc = [] then pySplitChars [] cs
      else String.mk acc.reverse :: pySplitChars [] cs
    else pySplitChars (c :: acc) cs

/-- Python `s.split()` (no argument): split on whitespace runs,
dropping empty tokens.  Used at `base.py` line 32. -/
def pySplit (s : String) : List String :=
  pySplitChars [] s.data

/-- Contract of the python-chess Position Engine as used by the code:
`boardOfFen` is `chess.Board(fen)` (`none` models the exception on an
invalid FEN), `fen` is `Board.fen()`, `legalMovesUci` is
`[m.uci() for m in board.legal_moves]`, and `pushUci` is
`Board.push_uci` (`none` models the exception on an illegal move).
`push_legal` states that `push_uci` succeeds exactly on the UCI strings
of the legal moves; `fen_round` states that re-parsing the FEN the
engine printed yields the same (observable) position, which is the
round-trip guarantee of the library's canonical FEN output. -/
structure ChessEngine where
  Board : Type
  boardOfFen : String → Option Board
  fen : Board → String
  legalMovesUci : Board → List String
  pushUci : Board → String → Option Board
  push_legal : ∀ b m, (pushUci b m).isSome ↔ m ∈ legalMovesUci b
  fen_round : ∀ b, boardOfFen (fen b) = some b

/-- The example emitted by one iteration of the `_create_dspy_example`
loop (`base.py` lines 53-67): current position string, the enumerated
legal moves as the dense-int-keyed `possible_moves` dict, the expected
move of this ply and the running `move_index`. -/
def mkBuilderExample (E : ChessEngine) (pid : String) (md : Metadata)
    (board : E.Board) (expected_move : String) (move_idx : Nat) : Example :=
  let lm := E.legalMovesUci board
  { puzzle := E.fen board
    possible_moves :=
      ((List.range lm.length).zip lm).map (fun p => (Key.intK p.1, p.2))
    expected_move := expected_move
    puzzle_id := pid
    metadata := md
    move_index := some move_idx }

/-- The loop of `_create_dspy_example` (`base.py` lines 53-73):
one example per remaining solution move; the board is advanced by
`push_uci` after every example except the last.  A failing `push_uci`
(illegal move) is the propagating Python exception, i.e. `.error`. -/
def buildExamples (E : ChessEngine) (pid : String) (md : Metadata) :
    E.Board → List String → Nat → Except String (List Example)
  | _, [], _ => .ok []
  | board, expected_move :: rest, move_idx =>
    let ex := mkBuilderExample E pid md board expected_move move_idx
    if rest.isEmpty then .ok [ex]
    else
      match E.pushUci board expected_move with
      | none => .error "illegal uci move"
      | some board2 =>
        (buildExamples E pid md board2 rest (move_idx + 1)).map
          (fun exs => ex :: exs)

/-- The `metadata` dict built at `base.py` lines 37-47.  The
`control_group` key is only added when the label is truthy
(`if control_group:`, line 46), so the empty string is dropped like
`None`. -/
def builderMetadata (puzzle : PuzzleRow) (control_group : Option String) :
    Metadata :=
  { rating := puzzle.Rating
    popularity := puzzle.Popularity
    rating_deviation := puzzle.RatingDeviation
    themes := puzzle.Themes
    moves := some (pySplit puzzle.Moves)
    initial_fen := puzzle.FEN
    control_group :=
      match control_group with
      | some s => if s = "" then none else some s
      | none => none }

/-- `BaseSampler._create_dspy_example` (`base.py` lines 20-75).
Returns `.ok none` for an empty move list (Python `return None`),
`.error` when board construction or a `push_uci` raises, and
`.ok (some examples)` otherwise. -/
def create_dspy_example (E : ChessEngine) (puzzle : PuzzleRow)
    (control_group : Option String) : Except String (Option (List Example)) :=
  let moves := pySplit puzzle.Moves
  if moves = [] then .ok none
  else
    let metadata := builderMetadata puzzle control_group
    match E.boardOfFen puzzle.FEN with
    | none => .error "invalid FEN"
    | some board =>
      (buildExamples E puzzle.PuzzleId metadata board moves 0).map some

/-- `control_groups.iloc[idx]` lookup of `base.py` line 90 (labels
aligned by position; `none` when no label series is given). -/
def cgAt (control_groups : Option (List (Option String))) (idx : Nat) :
    Option String :=
  match control_groups with
  | some l => (l.get? idx).getD none
  | none => none

/-- The loop of `_create_examples_from_df` (`base.py` lines 88-94),
carrying the positional index.  There is no `try`/`except` around the
builder call, so a builder error short-circuits the whole batch; a
falsy result (`None`, which is the only falsy case the builder can
return besides an empty list) contributes nothing. -/
def create_examples_go (E : ChessEngine)
    (control_groups : Option (List (Option String))) :
    Nat → List PuzzleRow → Except String (List Example)
  | _, [] => .ok []
  | idx, row :: rest => do
    let res ← create_dspy_example E row (cgAt control_groups idx)
    let tail ← create_examples_go E control_groups (idx + 1) rest
    match res with
    | some exs => if exs.isEmpty then .ok tail else .ok (exs ++ tail)
    | none => .ok tail

/-- `BaseSampler._create_examples_from_df` (`base.py` lines 77-94). -/
def create_examples_from_df (E : ChessEngine) (df : List PuzzleRow)
    (control_groups : Option (List (Option String))) :
    Except String (List Example) :=
  create_examples_go E control_groups 0 df

/-- `BaseSampler.__init__` (`base.py` lines 10-18): the only retained
state is the seed.  (The `np.random.seed` global call is irrelevant to
the sampler's own draws, which pass `random_state` explicitly.) -/
structure BaseSampler where
  random_state : Nat
deriving DecidableEq

/-- Contract of pandas `DataFrame.sample(n=.., random_state=..)` drawing
without replacement, as used at `random.py` line 26: given the
population length, the requested size `n ≤ len` and the seed, it picks
a deterministic list of `n` pairwise-distinct row indices below `len`. -/
structure PandasSample where
  pick : Nat → Nat → Nat → List Nat
  pick_length : ∀ len n seed, n ≤ len → (pick len n seed).length = n
  pick_nodup : ∀ len n seed, n ≤ len → (pick len n seed).Nodup
  pick_lt : ∀ len n seed, n ≤ len → ∀ i ∈ pick len n seed, i < len

/-- Row indices selected by `df.sample(n=min(sample_size, len(df)),
random_state=self.random_state)` (`random.py` line 26). -/
def sampledIdx (PS : PandasSample) (s : BaseSampler)
    (df : List SingleMoveRow) (sample_size : Nat) : List Nat :=
  PS.pick df.length (min sample_size df.length) s.random_state

/-- The rows of `sampled_df` at `random.py` line 26. -/
def sampledRows (PS : PandasSample) (s : BaseSampler)
    (df : List SingleMoveRow) (sample_size : Nat) : List SingleMoveRow :=
  (sampledIdx PS s df sample_size).filterMap (fun i => df[i]?)

/-- The `try` body of the per-row loop of `RandomSampler.create_sample`
(`random.py` lines 30-59): `none` when the row is skipped, either
because `chess.Board(row['puzzle_fen'])` raises (caught by the
`except`) or because the position has no legal moves (`continue`). -/
def rowToExample (E : ChessEngine) (row : SingleMoveRow) : Option Example :=
  match E.boardOfFen row.puzzle_fen with
  | none => none
  | some board =>
    let lm := E.legalMovesUci board
    let legal_moves :=
      ((List.range lm.length).zip lm).map
        (fun p => (Key.strK (toString p.1), p.2))
    if lm.isEmpty then none
    else
      some
        { puzzle := row.puzzle_fen
          possible_moves := legal_moves
          expected_move := row.expected_move
          puzzle_id := row.PuzzleId
          metadata :=
            { rating := row.Rating
              popularity := row.Popularity
              rating_deviation := row.RatingDeviation
              themes := row.Themes
              initial_fen := row.FEN
              opponent_move := some row.opponent_move } }

/-- `RandomSampler.create_sample` (`random.py` lines 10-60): draw the
seeded sample, then keep the successfully converted rows in order. -/
def create_sample (E : ChessEngine) (PS : PandasSample) (s : BaseSampler)
    (df : List SingleMoveRow) (sample_size : Nat) : List Example :=
  (sampledRows PS s df sample_size).filterMap (rowToExample E)

/-- The summary produced by pandas `Series.describe()` on a numeric
series: count, mean, std, min, 25/50/75th percentile, max.  The
reported std is the square root of the unbiased (ddof = 1) variance;
to stay in exact arithmetic the summary carries that variance (`var`),
i.e. the square of the reported value. -/
structure DescStats where
  count : Nat
  mean : ℚ
  var : ℚ
  min : ℚ
  q25 : ℚ
  q50 : ℚ
  q75 : ℚ
  max : ℚ
deriving DecidableEq

/-- pandas linear-interpolation quantile of an already sorted list. -/
def quantile (sorted : List ℚ) (q : ℚ) : ℚ :=
  match sorted with
  | [] => 0
  | _ =>
    let n := sorted.length
    let pos : ℚ := q * ((n : ℚ) - 1)
    let i : Nat := pos.floor.toNat
    let lo := sorted.getD i 0
    let hi := sorted.getD (i + 1) lo
    lo + (pos - (i : ℚ)) * (hi - lo)

/-- pandas `Series.describe()` on a numeric series.  (On an empty
series pandas reports NaN statistics; here the `0/0 = 0` convention of
`ℚ` applies instead, a case none of the verified code paths reach.) -/
def describe (xs : List ℚ) : DescStats :=
  let n := xs.length
  let mean := xs.sum / (n : ℚ)
  let var := (xs.map (fun x => (x - mean) * (x - mean))).sum / ((n : ℚ) - 1)
  let sorted := xs.insertionSort (fun a b => a ≤ b)
  { count := n
    mean := mean
    var := var
    min := quantile sorted 0
    q25 := quantile sorted (1 / 4)
    q50 := quantile sorted (1 / 2)
    q75 := quantile sorted (3 / 4)
    max := quantile sorted 1 }

/-- A cell value of the sample DataFrame rebuilt inside the analyzers
(ratings are numeric, themes are strings). -/
inductive PdVal where
  | num : ℚ → PdVal
  | str : String → PdVal
deriving DecidableEq

/-- A row of a DataFrame built from a list of Python dicts. -/
abbrev PdRow := List (String × PdVal)

/-- Column membership of `pd.DataFrame(list_of_dicts)`: the column set
is the union of the dict keys, so an empty list yields a frame with no
columns at all. -/
def dfHasCol (rows : List PdRow) (c : String) : Bool :=
  rows.any (fun r => r.any (fun p => p.1 == c))

/-- The numeric values of a column (cells of other types never occur in
the columns the analyzers select; `0` is a dead default). -/
def colVals (rows : List PdRow) (c : String) : List ℚ :=
  rows.filterMap (fun r =>
    (r.find? (fun p => p.1 == c)).map (fun p =>
      match p.2 with
      | .num q => q
      | .str _ => 0))

/-- `sample_df[c].describe()`: selecting a column that is absent from
the frame raises a `KeyError`. -/
def dfDescribeCol (rows : List PdRow) (c : String) :
    Except String DescStats :=
  if dfHasCol rows c then .ok (describe (colVals rows c))
  else .error ("KeyError: " ++ c)

/-- One entry of the returned distributions dict: a two-column frame
pairing the population and sample summaries. -/
structure StatsPair where
  population : DescStats
  sample : DescStats
deriving DecidableEq

/-- The sample-side row rebuilt from one example by
`BaseSampler.analyze_distribution` (`base.py` lines 111-120). -/
def baseSampleRow (ex : Example) : PdRow :=
  [("rating", .num ex.metadata.rating),
   ("popularity", .num ex.metadata.popularity),
   ("rating_deviation", .num ex.metadata.rating_deviation),
   ("themes", .str ex.metadata.themes)]

/-- `BaseSampler.analyze_distribution` (`base.py` lines 96-142): build
the sample frame from the examples' metadata, then pair
`describe()` summaries — only for the Rating and Popularity columns. -/
def analyze_distribution (population_df : List PuzzleRow)
    (sampled_examples : List Example) :
    Except String (List (String × StatsPair)) := do
  let sample_df := sampled_examples.map baseSampleRow
  let pop_rating_stats := describe (population_df.map (fun r => r.Rating))
  let sample_rating_stats ← dfDescribeCol sample_df "rating"
  let pop_popularity_stats :=
    describe (population_df.map (fun r => r.Popularity))
  let sample_popularity_stats ← dfDescribeCol sample_df "popularity"
  .ok [("rating_stats",
         { population := pop_rating_stats, sample := sample_rating_stats }),
       ("popularity_stats",
         { population := pop_popularity_stats,
           sample := sample_popularity_stats })]

/-- The sample-side row rebuilt from one example by
`analyze_sample_distribution` (`random.py` lines 78-84). -/
def randomSampleRow (ex : Example) : PdRow :=
  [("rating", .num ex.metadata.rating),
   ("popularity", .num ex.metadata.popularity),
   ("rating_deviation", .num ex.metadata.rating_deviation)]

/-- `analyze_sample_distribution` (`random.py` lines 62-107): same
shape as `analyze_distribution`, over the single-move population. -/
def analyze_sample_distribution (df : List SingleMoveRow)
    (sampled_examples : List Example) :
    Except String (List (String × StatsPair)) := do
  let sample_df := sampled_examples.map randomSampleRow
  let pop_rating_stats := describe (df.map (fun r => r.Rating))
  let sample_rating_stats ← dfDescribeCol sample_df "rating"
  let pop_popularity_stats := describe (df.map (fun r => r.Popularity))
  let sample_popularity_stats ← dfDescribeCol sample_df "popularity"
  .ok [("rating_stats",
         { population := pop_rating_stats, sample := sample_rating_stats }),
       ("popularity_stats",
         { population := pop_popularity_stats,
           sample := sample_popularity_stats })]

/-- Sequential legality of a move list along the replay: every move is
accepted by `push_uci` on the board reached by the preceding moves
(by `ChessEngine.push_legal`, equivalently each move is among the legal
moves of its board). -/
def legalSeq (E : ChessEngine) (b : E.Board) : List String → Bool
  | [] => true
  | m :: rest =>
    match E.pushUci b m with
    | some b2 => legalSeq E b2 rest
    | none => false

/-- Advancing a position string by a move string through the engine:
parse, push, print. -/
def advanceFen (E : ChessEngine) (s m : String) : Option String :=
  ((E.boardOfFen s).bind (fun b => E.pushUci b m)).map E.fen

/-- Legal-move table of a small concrete engine used to exercise the
definitions: a board is its own position string; short positions offer
the two moves `x` and `y`, long positions are terminal (no legal
moves). -/
def toyLegal (b : String) : List String :=
  if b.length ≤ 4 then ["x", "y"] else []

/-- `push_uci` of the concrete engine: applying a legal move appends
it to the position string; an illegal move fails. -/
def toyPush (b m : String) : Option String :=
  if m ∈ toyLegal b then some (b ++ m) else none

/-- A concrete `ChessEngine` instance (boards are their own position
strings, so printing and parsing are identities). -/
def toyEngine : ChessEngine where
  Board := String
  boardOfFen := fun s => some s
  fen := fun b => b
  legalMovesUci := toyLegal
  pushUci := toyPush
  push_legal := by
    intro b m
    unfold toyPush
    by_cases h : m ∈ toyLegal b
    · simp [h]
    · simp [h]
  fen_round := fun _ => rfl

/-- A concrete `PandasSample` instance: picking the first `n` indices
satisfies the draw-without-replacement contract. -/
def toyPS : PandasSample where
  pick := fun _ n _ => List.range n
  pick_length := by intro len n seed _; simp
  pick_nodup := by intro len n seed _; exact List.nodup_range n
  pick_lt := by
    intro len n seed hle i hi
    exact lt_of_lt_of_le (List.mem_range.mp hi) hle

deriving instance DecidableEq for Except

/-- A builder row with only-whitespace `Moves` (empty move list). -/
def pEmpty : PuzzleRow :=
  { PuzzleId := "P0", FEN := "S", Moves := "  ", Rating := 100,
    Popularity := 9, RatingDeviation := 5, Themes := "t" }

/-- A builder row with a legal two-move solution for `toyEngine`. -/
def p1 : PuzzleRow :=
  { PuzzleId := "P1", FEN := "S", Moves := "x y", Rating := 100,
    Popularity := 9, RatingDeviation := 5, Themes := "t" }

/-- A builder row whose single-move solution starts on a `toyEngine`
position that has no legal moves. -/
def pMate : PuzzleRow :=
  { PuzzleId := "PM", FEN := "mate!", Moves := "zz", Rating := 1,
    Popularity := 2, RatingDeviation := 3, Themes := "m" }

/-- A builder row whose two-move solution starts on a `toyEngine`
position that has no legal moves. -/
def pMate2 : PuzzleRow :=
  { PuzzleId := "PM2", FEN := "mate!", Moves := "zz yy", Rating := 1,
    Popularity := 2, RatingDeviation := 3, Themes := "m" }

/-- A builder row whose first solution move is illegal for
`toyEngine` and is followed by a further move, so the replay pushes
the illegal move. -/
def pBad : PuzzleRow :=
  { PuzzleId := "PB", FEN := "S", Moves := "zz yy", Rating := 1,
    Popularity := 2, RatingDeviation := 3, Themes := "m" }

/-- A single-move row convertible by `toyEngine`. -/
def r1 : SingleMoveRow :=
  { PuzzleId := "R1", FEN := "F0", puzzle_fen := "S", expected_move := "x",
    opponent_move := "o", Rating := 10, Popularity := 20,
    RatingDeviation := 30, Themes := "th" }

/-- A single-move row whose position has no legal moves for
`toyEngine`. -/
def rMate : SingleMoveRow :=
  { PuzzleId := "RM", FEN := "F0", puzzle_fen := "mate!",
    expected_move := "x", opponent_move := "o", Rating := 10,
    Popularity := 20, RatingDeviation := 30, Themes := "th" }

/-- The example the single-ply sampler produces from `r1`. -/
def exR1 : Example :=
  { puzzle := "S"
    possible_moves := [(Key.strK "0", "x"), (Key.strK "1", "y")]
    expected_move := "x"
    puzzle_id := "R1"
    metadata :=
      { rating := 10, popularity := 20, rating_deviation := 30,
        themes := "th", initial_fen := "F0", opponent_move := some "o" } }

/-- The ply-0 example the multi-ply builder produces from `p1`. -/
def exB0 : Example :=
  { puzzle := "S"
    possible_moves := [(Key.intK 0, "x"), (Key.intK 1, "y")]
    expected_move := "x"
    puzzle_id := "P1"
    metadata :=
      { rating := 100, popularity := 9, rating_deviation := 5,
        themes := "t", moves := some ["x", "y"], initial_fen := "S" }
    move_index := some 0 }

/-- The ply-1 example the multi-ply builder produces from `p1`. -/
def exB1 : Example :=
  { puzzle := "Sx"
    possible_moves := [(Key.intK 0, "x"), (Key.intK 1, "y")]
    expected_move := "y"
    puzzle_id := "P1"
    metadata :=
      { rating := 100, popularity := 9, rating_deviation := 5,
        themes := "t", moves := some ["x", "y"], initial_fen := "S" }
    move_index := some 1 }

lemma keys_of_pm (l : List String) (f : Nat → Key) :
    ((((List.range l.length).zip l).map
        (fun p => (f p.1, p.2))).map Prod.fst) =
      (List.range l.length).map f := by
  rw [List.map_map]
  have h1 : (Prod.fst ∘ fun p : Nat × String => (f p.1, p.2)) =
      (f ∘ Prod.fst) := rfl
  rw [h1, ← List.map_map, List.map_fst_zip]
  simp

lemma vals_of_pm (l : List String) (f : Nat → Key) :
    ((((List.range l.length).zip l).map
        (fun p => (f p.1, p.2))).map Prod.snd) = l := by
  rw [List.map_map]
  have h1 : (Prod.snd ∘ fun p : Nat × String => (f p.1, p.2)) =
      (Prod.snd : Nat × String → String) := rfl
  rw [h1, List.map_snd_zip]
  simp

lemma mk_vals (E : ChessEngine) (pid : String) (md : Metadata)
    (b : E.Board) (m : String) (i : Nat) :
    (mkBuilderExample E pid md b m i).possible_moves.map Prod.snd =
      E.legalMovesUci b := by
  simp only [mkBuilderExample]
  exact vals_of_pm (E.legalMovesUci b) Key.intK

lemma mk_keys (E : ChessEngine) (pid : String) (md : Metadata)
    (b : E.Board) (m : String) (i : Nat) :
    (mkBuilderExample E pid md b m i).possible_moves.map Prod.fst =
      (List.range (E.legalMovesUci b).length).map Key.intK := by
  simp only [mkBuilderExample]
  exact keys_of_pm (E.legalMovesUci b) Key.intK

lemma buildExamples_sound (E : ChessEngine) (pid : String) (md : Metadata) :
    ∀ (ms : List String) (b : E.Board) (idx : Nat),
      legalSeq E b ms = true →
      ∃ exs, buildExamples E pid md b ms idx = .ok exs ∧
        exs.length = ms.length ∧
        exs.map (fun e => e.move_index) =
          (List.range' idx ms.length).map (fun i => some i) ∧
        exs.map (fun e => e.expected_move) = ms ∧
        (∀ ex ∈ exs, ex.expected_move ∈ ex.possible_moves.map Prod.snd) ∧
        (exs.map (fun e => e.puzzle)).head? =
          (if ms.isEmpty then none else some (E.fen b)) ∧
        List.Chain' (fun a c =>
          advanceFen E a.puzzle a.expected_move = some c.puzzle) exs := by
  intro ms
  induction ms with
  | nil =>
    intro b idx _
    refine ⟨[], rfl, rfl, by simp, rfl, by simp, by simp, List.chain'_nil⟩
  | cons m rest ih =>
    intro b idx hleg
    simp only [legalSeq] at hleg
    cases hp : E.pushUci b m with
    | none => rw [hp] at hleg; simp at hleg
    | some b2 =>
      rw [hp] at hleg
      have hm : m ∈ E.legalMovesUci b :=
        (E.push_legal b m).mp (by rw [hp]; rfl)
      cases rest with
      | nil =>
        refine ⟨[mkBuilderExample E pid md b m idx], rfl, rfl, ?_, rfl, ?_,
          by simp [mkBuilderExample], List.chain'_singleton _⟩
        · simp [List.range'_succ, mkBuilderExample]
        · intro ex hex
          rw [List.mem_singleton] at hex
          subst hex
          rw [mk_vals]
          exact hm
      | cons r rs =>
        obtain ⟨exs2, hok2, hlen2, hmi2, hem2, hexp2, hhead2, hch2⟩ :=
          ih b2 (idx + 1) hleg
        have hstep : buildExamples E pid md b (m :: r :: rs) idx =
            match E.pushUci b m with
            | none => .error "illegal uci move"
            | some board2 =>
              (buildExamples E pid md board2 (r :: rs) (idx + 1)).map
                (fun l => mkBuilderExample E pid md b m idx :: l) := rfl
        refine ⟨mkBuilderExample E pid md b m idx :: exs2, ?_, ?_, ?_, ?_,
          ?_, ?_, ?_⟩
        · rw [hstep, hp]
          show Except.map (fun l => mkBuilderExample E pid md b m idx :: l)
            (buildExamples E pid md b2 (r :: rs) (idx + 1)) =
            Except.ok (mkBuilderExample E pid md b m idx :: exs2)
          rw [hok2]
          rfl
        · simp [hlen2]
        · simp only [List.map_cons, hmi2, List.length_cons, List.range'_succ]
          simp [mkBuilderExample]
        · simp only [List.map_cons, hem2, mkBuilderExample]
        · intro ex hex
          rcases List.mem_cons.mp hex with h1 | h1
          · subst h1
            rw [mk_vals]
            exact hm
          · exact hexp2 ex h1
        · simp [mkBuilderExample]
        · rw [List.chain'_cons']
          refine ⟨?_, hch2⟩
          intro y hy
          have hhy : y.puzzle = E.fen b2 := by
            rw [List.head?_map] at hhead2
            cases hexs2 : exs2 with
            | nil => rw [hexs2] at hhead2; simp at hhead2
            | cons e0 t =>
              rw [hexs2] at hhead2 hy
              have hy2 : e0 = y := by simpa using Option.mem_def.mp hy
              rw [← hy2]
              simpa using hhead2
          show advanceFen E (mkBuilderExample E pid md b m idx).puzzle
            (mkBuilderExample E pid md b m idx).expected_move = some y.puzzle
          simp only [mkBuilderExample]
          simp [advanceFen, E.fen_round, hp, hhy]

lemma buildExamples_shape (E : ChessEngine) (pid : String) (md : Metadata) :
    ∀ (ms : List String) (b : E.Board) (idx : Nat) (exs : List Example),
      buildExamples E pid md b ms idx = .ok exs →
      ∀ ex ∈ exs, ∃ (bb : E.Board) (m : String) (i : Nat),
        ex = mkBuilderExample E pid md bb m i := by
  intro ms
  induction ms with
  | nil =>
    intro b idx exs h ex hex
    simp only [buildExamples, Except.ok.injEq] at h
    subst h
    simp at hex
  | cons m rest ih =>
    intro b idx exs h ex hex
    cases rest with
    | nil =>
      simp only [buildExamples, List.isEmpty_nil, if_true,
        Except.ok.injEq] at h
      subst h
      rw [List.mem_singleton] at hex
      exact ⟨b, m, idx, hex⟩
    | cons r rs =>
      have hstep : buildExamples E pid md b (m :: r :: rs) idx =
          match E.pushUci b m with
          | none => .error "illegal uci move"
          | some board2 =>
            (buildExamples E pid md board2 (r :: rs) (idx + 1)).map
              (fun l => mkBuilderExample E pid md b m idx :: l) := rfl
      rw [hstep] at h
      cases hp : E.pushUci b m with
      | none => rw [hp] at h; simp at h
      | some b2 =>
        rw [hp] at h
        have h2 : (buildExamples E pid md b2 (r :: rs) (idx + 1)).map
            (fun l => mkBuilderExample E pid md b m idx :: l) = .ok exs := h
        cases hrec : buildExamples E pid md b2 (r :: rs) (idx + 1) with
        | error e => rw [hrec] at h2; simp [Except.map] at h2
        | ok exs2 =>
          rw [hrec] at h2
          simp only [Except.map, Except.ok.injEq] at h2
          subst h2
          rcases List.mem_cons.mp hex with h1 | h1
          · exact ⟨b, m, idx, h1⟩
          · exact ih b2 (idx + 1) exs2 hrec ex h1

lemma except_map_some_inv {exs : List Example}
    {x : Except String (List Example)} :
    x.map some = .ok (some exs) → x = .ok exs := by
  cases x with
  | error e => simp [Except.map]
  | ok l => simp [Except.map]

lemma create_dspy_ok_inv (E : ChessEngine) (p : PuzzleRow)
    (cg : Option String) (exs : List Example) :
    create_dspy_example E p cg = .ok (some exs) →
    ∃ (b : E.Board) (md : Metadata),
      E.boardOfFen p.FEN = some b ∧
      buildExamples E p.PuzzleId md b (pySplit p.Moves) 0 = .ok exs := by
  intro h
  by_cases hmv : pySplit p.Moves = []
  · unfold create_dspy_example at h
    rw [if_pos hmv] at h
    simp at h
  · unfold create_dspy_example at h
    rw [if_neg hmv] at h
    cases hb : E.boardOfFen p.FEN with
    | none => rw [hb] at h; simp at h
    | some b =>
      rw [hb] at h
      exact ⟨b, _, rfl, except_map_some_inv h⟩

lemma filterMap_getElem_length (df : List SingleMoveRow) :
    ∀ (idxs : List Nat), (∀ i ∈ idxs, i < df.length) →
      (idxs.filterMap (fun i => df[i]?)).length = idxs.length := by
  intro idxs
  induction idxs with
  | nil => intro _; rfl
  | cons i t ih =>
    intro h
    have hi : i < df.length := h i (List.mem_cons_self i t)
    rw [List.filterMap_cons, List.getElem?_eq_getElem hi]
    simp only [List.length_cons]
    rw [ih (fun j hj => h j (List.mem_cons_of_mem i hj))]

lemma colVals_base_rating (exs : List Example) :
    colVals (exs.map baseSampleRow) "rating" =
      exs.map (fun e => e.metadata.rating) := by
  induction exs with
  | nil => rfl
  | cons e t ih =>
    simp only [List.map_cons]
    rw [show colVals (baseSampleRow e :: t.map baseSampleRow) "rating" =
        e.metadata.rating :: colVals (t.map baseSampleRow) "rating" from rfl,
      ih]

lemma colVals_base_popularity (exs : List Example) :
    colVals (exs.map baseSampleRow) "popularity" =
      exs.map (fun e => e.metadata.popularity) := by
  induction exs with
  | nil => rfl
  | cons e t ih =>
    simp only [List.map_cons]
    rw [show colVals (baseSampleRow e :: t.map baseSampleRow) "popularity" =
        e.metadata.popularity ::
          colVals (t.map baseSampleRow) "popularity" from rfl, ih]

lemma colVals_random_rating (exs : List Example) :
    colVals (exs.map randomSampleRow) "rating" =
      exs.map (fun e => e.metadata.rating) := by
  induction exs with
  | nil => rfl
  | cons e t ih =>
    simp only [List.map_cons]
    rw [show colVals (randomSampleRow e :: t.map randomSampleRow) "rating" =
        e.metadata.rating ::
          colVals (t.map randomSampleRow) "rating" from rfl, ih]

lemma colVals_random_popularity (exs : List Example) :
    colVals (exs.map randomSampleRow) "popularity" =
      exs.map (fun e => e.metadata.popularity) := by
  induction exs with
  | nil => rfl
  | cons e t ih =>
    simp only [List.map_cons]
    rw [show colVals (randomSampleRow e :: t.map randomSampleRow)
          "popularity" =
        e.metadata.popularity ::
          colVals (t.map randomSampleRow) "popularity" from rfl, ih]

/-- C1: for a puzzle record whose (whitespace-split) solution-move list
has at least one move and whose moves are sequentially legal along the
replay, `_create_dspy_example` returns exactly one example per move,
with `move_index` 0..N-1 in order, and each example's `expected_move`
appears among the values of its `possible_moves` mapping. -/
theorem claim1 (E : ChessEngine) (p : PuzzleRow) (cg : Option String)
    (b0 : E.Board) (h0 : E.boardOfFen p.FEN = some b0)
    (hne : pySplit p.Moves ≠ [])
    (hleg : legalSeq E b0 (pySplit p.Moves) = true) :
    ∃ exs, create_dspy_example E p cg = .ok (some exs) ∧
      exs.length = (pySplit p.Moves).length ∧
      exs.map (fun e => e.move_index) =
        (List.range (pySplit p.Moves).length).map (fun i => some i) ∧
      ∀ ex ∈ exs, ex.expected_move ∈ ex.possible_moves.map Prod.snd := by
  obtain ⟨exs, hok, hlen, hmi, _, hexp, _, _⟩ :=
    buildExamples_sound E p.PuzzleId (builderMetadata p cg)
      (pySplit p.Moves) b0 0 hleg
  refine ⟨exs, ?_, hlen, ?_, hexp⟩
  · unfold create_dspy_example
    rw [if_neg hne, h0]
    show (buildExamples E p.PuzzleId (builderMetadata p cg) b0
      (pySplit p.Moves) 0).map some = .ok (some exs)
    rw [hok]
    rfl
  · rw [hmi, List.range_eq_range']

theorem claim1_witness :
    toyEngine.boardOfFen p1.FEN = some "S" ∧
    pySplit p1.Moves ≠ [] ∧
    legalSeq toyEngine "S" (pySplit p1.Moves) = true ∧
    (∃ exs, create_dspy_example toyEngine p1 none = .ok (some exs) ∧
      exs.length = (pySplit p1.Moves).length ∧
      exs.map (fun e => e.move_index) =
        (List.range (pySplit p1.Moves).length).map (fun i => some i) ∧
      ∀ ex ∈ exs, ex.expected_move ∈ ex.possible_moves.map Prod.snd) :=
  ⟨rfl, by decide, by decide,
    claim1 toyEngine p1 none "S" rfl (by decide) (by decide)⟩

/-- C2: under the same sequential-legality hypotheses, with the record's
start position string canonical for the engine, the emitted examples'
position strings are exactly the replay sequence: the first example
carries the record's start position, and each later example's position
is the previous example's position advanced by the previous example's
expected move. -/
theorem claim2 (E : ChessEngine) (p : PuzzleRow) (cg : Option String)
    (b0 : E.Board) (h0 : E.boardOfFen p.FEN = some b0)
    (hcanon : E.fen b0 = p.FEN)
    (hne : pySplit p.Moves ≠ [])
    (hleg : legalSeq E b0 (pySplit p.Moves) = true) :
    ∃ exs, create_dspy_example E p cg = .ok (some exs) ∧
      (exs.map (fun e => e.puzzle)).head? = some p.FEN ∧
      List.Chain' (fun a c =>
        advanceFen E a.puzzle a.expected_move = some c.puzzle) exs := by
  obtain ⟨exs, hok, _, _, _, _, hhead, hch⟩ :=
    buildExamples_sound E p.PuzzleId (builderMetadata p cg)
      (pySplit p.Moves) b0 0 hleg
  refine ⟨exs, ?_, ?_, hch⟩
  · unfold create_dspy_example
    rw [if_neg hne, h0]
    show (buildExamples E p.PuzzleId (builderMetadata p cg) b0
      (pySplit p.Moves) 0).map some = .ok (some exs)
    rw [hok]
    rfl
  · rw [hhead, if_neg, hcanon]
    simp only [List.isEmpty_iff]
    exact hne

theorem claim2_witness :
    toyEngine.boardOfFen p1.FEN = some "S" ∧
    toyEngine.fen "S" = p1.FEN ∧
    pySplit p1.Moves ≠ [] ∧
    legalSeq toyEngine "S" (pySplit p1.Moves) = true ∧
    (∃ exs, create_dspy_example toyEngine p1 none = .ok (some exs) ∧
      (exs.map (fun e => e.puzzle)).head? = some p1.FEN ∧
      List.Chain' (fun a c =>
        advanceFen toyEngine a.puzzle a.expected_move = some c.puzzle) exs) :=
  ⟨rfl, rfl, by decide, by decide,
    claim2 toyEngine p1 none "S" rfl rfl (by decide) (by decide)⟩

/-- C9: for a record whose whitespace-split solution-move list is
empty, `_create_dspy_example` returns the absent result (`None`,
i.e. `.ok none`) and never raises. -/
theorem claim9 (E : ChessEngine) (p : PuzzleRow) (cg : Option String)
    (h : pySplit p.Moves = []) :
    create_dspy_example E p cg = .ok none := by
  unfold create_dspy_example
  rw [if_pos h]

theorem claim9_witness :
    pySplit pEmpty.Moves = [] ∧
    create_dspy_example toyEngine pEmpty none = .ok none :=
  ⟨by decide, claim9 toyEngine pEmpty none (by decide)⟩

/-- C3 counterexample: a batch of two records where the first record's
replay pushes an illegal move.  `_create_examples_from_df` does not
continue with the second (valid) record: the whole call fails with the
propagated error, so the claim that the assembler never aborts the
batch is false. -/
theorem claim3_cex :
    create_examples_from_df toyEngine [pBad, p1] none =
      .error "illegal uci move" := by decide

/-- C3 amended: if the builder fails on a record (illegal replay move),
the error propagates out of `_create_examples_from_df` — there is no
per-record error handling — so the whole batch call fails and
subsequent records contribute no examples. -/
theorem claim3 :
    (∀ (E : ChessEngine) (cgs : Option (List (Option String))) (idx : Nat)
        (row : PuzzleRow) (rest : List PuzzleRow) (e : String),
        create_dspy_example E row (cgAt cgs idx) = .error e →
        create_examples_go E cgs idx (row :: rest) = .error e) ∧
    (∀ (E : ChessEngine) (cgs : Option (List (Option String)))
        (row : PuzzleRow) (rest : List PuzzleRow) (e : String),
        create_dspy_example E row (cgAt cgs 0) = .error e →
        create_examples_from_df E (row :: rest) cgs = .error e) := by
  constructor
  · intro E cgs idx row rest e h
    simp only [create_examples_go]
    rw [h]
    rfl
  · intro E cgs row rest e h
    unfold create_examples_from_df
    simp only [create_examples_go]
    rw [h]
    rfl

theorem claim3_witness :
    create_dspy_example toyEngine pBad (cgAt none 0) =
      .error "illegal uci move" ∧
    create_examples_go toyEngine none 0 [pBad, p1] =
      .error "illegal uci move" ∧
    create_examples_from_df toyEngine [pBad, p1] none =
      .error "illegal uci move" :=
  ⟨by decide,
    claim3.1 toyEngine none 0 pBad [p1] "illegal uci move" (by decide),
    claim3.2 toyEngine none pBad [p1] "illegal uci move" (by decide)⟩

/-- C6 counterexample: a record with a one-move solution whose start
position has no legal moves.  The multi-ply builder does not skip the
record: it still emits exactly one example, whose `possible_moves`
mapping is empty, so the claim that such a record contributes no
example is false. -/
theorem claim6_cex :
    (create_dspy_example toyEngine pMate none).map
        (Option.map List.length) = .ok (some 1) ∧
    (create_dspy_example toyEngine pMate none).map
        (Option.map (List.map (fun e => e.possible_moves))) =
      .ok (some [[]]) := by
  exact ⟨by decide, by decide⟩

/-- C6 amended: the single-ply sampler does skip a row whose position
has no legal moves (and the skip is non-fatal: `create_sample` is the
per-row filter of the sampled rows, so the remaining rows are still
processed); the multi-ply builder, however, performs no such check — a
one-move record whose position has no legal moves still emits one
example with an empty `possible_moves` mapping, and if such a position
is reached before the last ply the subsequent `push_uci` fails as an
error for that record. -/
theorem claim6 :
    (∀ (E : ChessEngine) (PS : PandasSample) (s : BaseSampler)
        (df : List SingleMoveRow) (n : Nat),
        create_sample E PS s df n =
          (sampledRows PS s df n).filterMap (rowToExample E)) ∧
    (∀ (E : ChessEngine) (row : SingleMoveRow) (b : E.Board),
        E.boardOfFen row.puzzle_fen = some b →
        E.legalMovesUci b = [] →
        rowToExample E row = none) ∧
    (∀ (E : ChessEngine) (p : PuzzleRow) (cg : Option String)
        (b0 : E.Board) (m : String),
        pySplit p.Moves = [m] →
        E.boardOfFen p.FEN = some b0 →
        E.legalMovesUci b0 = [] →
        (create_dspy_example E p cg).map
            (Option.map (List.map (fun e => e.possible_moves))) =
          .ok (some [[]])) ∧
    (∀ (E : ChessEngine) (p : PuzzleRow) (cg : Option String)
        (b0 : E.Board) (m1 m2 : String) (ms : List String),
        pySplit p.Moves = m1 :: m2 :: ms →
        E.boardOfFen p.FEN = some b0 →
        E.legalMovesUci b0 = [] →
        create_dspy_example E p cg = .error "illegal uci move") := by
  refine ⟨?_, ?_, ?_, ?_⟩
  · intro E PS s df n
    rfl
  · intro E row b hb hlm
    unfold rowToExample
    rw [hb]
    simp [hlm]
  · intro E p cg b0 m hmoves h0 hlm
    simp only [create_dspy_example]
    rw [hmoves, if_neg (by simp), h0]
    show ((buildExamples E p.PuzzleId (builderMetadata p cg) b0 [m] 0).map
        some).map (Option.map (List.map (fun e => e.possible_moves))) =
      .ok (some [[]])
    rw [show buildExamples E p.PuzzleId (builderMetadata p cg) b0 [m] 0 =
        .ok [mkBuilderExample E p.PuzzleId (builderMetadata p cg) b0 m 0]
      from rfl]
    show Except.ok (some
        [(mkBuilderExample E p.PuzzleId (builderMetadata p cg) b0 m
          0).possible_moves]) = .ok (some [[]])
    have hpm : (mkBuilderExample E p.PuzzleId (builderMetadata p cg) b0 m
        0).possible_moves = [] := by
      simp only [mkBuilderExample]
      rw [hlm]
      rfl
    rw [hpm]
  · intro E p cg b0 m1 m2 ms hmoves h0 hlm
    have hno : E.pushUci b0 m1 = none := by
      have h2 := E.push_legal b0 m1
      rw [hlm] at h2
      simpa using h2
    simp only [create_dspy_example]
    rw [hmoves, if_neg (by simp), h0]
    show (buildExamples E p.PuzzleId (builderMetadata p cg) b0
        (m1 :: m2 :: ms) 0).map some = .error "illegal uci move"
    rw [show buildExamples E p.PuzzleId (builderMetadata p cg) b0
        (m1 :: m2 :: ms) 0 =
        match E.pushUci b0 m1 with
        | none => .error "illegal uci move"
        | some board2 =>
          (buildExamples E p.PuzzleId (builderMetadata p cg) board2
            (m2 :: ms) 1).map
            (fun l =>
              mkBuilderExample E p.PuzzleId (builderMetadata p cg) b0 m1 0
                :: l)
      from rfl, hno]
    rfl

theorem claim6_witness :
    create_sample toyEngine toyPS ⟨7⟩ [rMate] 1 =
      (sampledRows toyPS ⟨7⟩ [rMate] 1).filterMap (rowToExample toyEngine) ∧
    toyEngine.boardOfFen rMate.puzzle_fen = some "mate!" ∧
    toyEngine.legalMovesUci "mate!" = [] ∧
    rowToExample toyEngine rMate = none ∧
    pySplit pMate.Moves = ["zz"] ∧
    (create_dspy_example toyEngine pMate none).map
        (Option.map (List.map (fun e => e.possible_moves))) =
      .ok (some [[]]) ∧
    pySplit pMate2.Moves = ["zz", "yy"] ∧
    create_dspy_example toyEngine pMate2 none = .error "illegal uci move" :=
  ⟨claim6.1 toyEngine toyPS ⟨7⟩ [rMate] 1, rfl, by decide,
    claim6.2.1 toyEngine rMate "mate!" rfl (by decide), by decide,
    claim6.2.2.1 toyEngine pMate none "mate!" "zz" (by decide) rfl
      (by decide),
    by decide,
    claim6.2.2.2 toyEngine pMate2 none "mate!" "zz" "yy" [] (by decide) rfl
      (by decide)⟩

/-- C10: every example emitted by the single-ply
`RandomSampler.create_sample` has a non-empty `possible_moves` mapping
keyed by the decimal strings "0".."M-1" for the M legal moves of its
position, while every example emitted by the multi-ply
`_create_dspy_example` has `possible_moves` keyed by the integers
0..M-1 (possibly empty): the two code paths produce different key
types for the same field. -/
theorem claim10 :
    (∀ (E : ChessEngine) (PS : PandasSample) (s : BaseSampler)
        (df : List SingleMoveRow) (n : Nat) (ex : Example),
        ex ∈ create_sample E PS s df n →
        ex.possible_moves ≠ [] ∧
        ∃ b : E.Board, E.boardOfFen ex.puzzle = some b ∧
          ex.possible_moves.map Prod.fst =
            (List.range (E.legalMovesUci b).length).map
              (fun i => Key.strK (toString i))) ∧
    (∀ (E : ChessEngine) (p : PuzzleRow) (cg : Option String)
        (exs : List Example) (ex : Example),
        create_dspy_example E p cg = .ok (some exs) → ex ∈ exs →
        ∃ b : E.Board, E.boardOfFen ex.puzzle = some b ∧
          ex.possible_moves.map Prod.fst =
            (List.range (E.legalMovesUci b).length).map Key.intK) := by
  constructor
  · intro E PS s df n ex hex
    unfold create_sample at hex
    obtain ⟨row, _, hrow⟩ := List.mem_filterMap.mp hex
    unfold rowToExample at hrow
    cases hb : E.boardOfFen row.puzzle_fen with
    | none => rw [hb] at hrow; simp at hrow
    | some board =>
      rw [hb] at hrow
      have hrow2 : (if (E.legalMovesUci board).isEmpty then none
          else some
            { puzzle := row.puzzle_fen
              possible_moves :=
                ((List.range (E.legalMovesUci board).length).zip
                  (E.legalMovesUci board)).map
                  (fun p => (Key.strK (toString p.1), p.2))
              expected_move := row.expected_move
              puzzle_id := row.PuzzleId
              metadata :=
                { rating := row.Rating
                  popularity := row.Popularity
                  rating_deviation := row.RatingDeviation
                  themes := row.Themes
                  initial_fen := row.FEN
                  opponent_move := some row.opponent_move }
              move_index := none }) = some ex := hrow
      split_ifs at hrow2 with hemp
      have hlm_ne : E.legalMovesUci board ≠ [] := by
        intro hc
        rw [hc] at hemp
        exact hemp rfl
      injection hrow2 with hexeq
      subst hexeq
      refine ⟨?_, board, hb, ?_⟩
      · intro hcontra
        apply hlm_ne
        have hcontra2 : ((List.range (E.legalMovesUci board).length).zip
            (E.legalMovesUci board)).map
              (fun p => (Key.strK (toString p.1), p.2)) = [] := hcontra
        have h2 := congrArg (List.map Prod.snd) hcontra2
        rw [vals_of_pm (E.legalMovesUci board)
          (fun i => Key.strK (toString i))] at h2
        simpa using h2
      · exact keys_of_pm (E.legalMovesUci board)
          (fun i => Key.strK (toString i))
  · intro E p cg exs ex hok hex
    obtain ⟨b, md, _, hbuild⟩ := create_dspy_ok_inv E p cg exs hok
    obtain ⟨bb, m, i, hexeq⟩ :=
      buildExamples_shape E p.PuzzleId md (pySplit p.Moves) b 0 exs hbuild
        ex hex
    subst hexeq
    refine ⟨bb, ?_, mk_keys E p.PuzzleId md bb m i⟩
    show E.boardOfFen (E.fen bb) = some bb
    exact E.fen_round bb

theorem claim10_witness :
    exR1 ∈ create_sample toyEngine toyPS ⟨1⟩ [r1] 5 ∧
    (exR1.possible_moves ≠ [] ∧
      ∃ b, toyEngine.boardOfFen exR1.puzzle = some b ∧
        exR1.possible_moves.map Prod.fst =
          (List.range (toyEngine.legalMovesUci b).length).map
            (fun i => Key.strK (toString i))) ∧
    create_dspy_example toyEngine p1 none = .ok (some [exB0, exB1]) ∧
    exB0 ∈ [exB0, exB1] ∧
    (∃ b, toyEngine.boardOfFen exB0.puzzle = some b ∧
      exB0.possible_moves.map Prod.fst =
        (List.range (toyEngine.legalMovesUci b).length).map Key.intK) :=
  ⟨by decide,
    claim10.1 toyEngine toyPS ⟨1⟩ [r1] 5 exR1 (by decide),
    by decide, by decide,
    claim10.2 toyEngine p1 none [exB0, exB1] exB0 (by decide) (by decide)⟩

/-- C5: the single-ply sampler's draw and output are a pure function of
the population, the requested size and the seed: two samplers
constructed with the same `random_state` select the same rows in the
same order and produce the same examples, so repeated runs with
identical inputs are identical. -/
theorem claim5 (E : ChessEngine) (PS : PandasSample) (s1 s2 : BaseSampler)
    (df : List SingleMoveRow) (n : Nat)
    (h : s1.random_state = s2.random_state) :
    sampledRows PS s1 df n = sampledRows PS s2 df n ∧
    create_sample E PS s1 df n = create_sample E PS s2 df n := by
  constructor
  · unfold sampledRows sampledIdx
    rw [h]
  · unfold create_sample sampledRows sampledIdx
    rw [h]

theorem claim5_witness :
    (BaseSampler.mk 42).random_state = (BaseSampler.mk 42).random_state ∧
    sampledRows toyPS ⟨42⟩ [r1] 1 = sampledRows toyPS ⟨42⟩ [r1] 1 ∧
    create_sample toyEngine toyPS ⟨42⟩ [r1] 1 =
      create_sample toyEngine toyPS ⟨42⟩ [r1] 1 :=
  ⟨rfl, claim5 toyEngine toyPS ⟨42⟩ ⟨42⟩ [r1] 1 rfl⟩

/-- C8: a requested sample size strictly larger than the population is
not an error: the draw is clamped to `min(sample_size, len(df))`, so
exactly `len(df)` row indices are selected, pairwise distinct, and the
selected row list has exactly `len(df)` rows. -/
theorem claim8 (PS : PandasSample) (s : BaseSampler)
    (df : List SingleMoveRow) (n : Nat) (h : df.length < n) :
    (sampledIdx PS s df n).length = df.length ∧
    (sampledIdx PS s df n).Nodup ∧
    (sampledRows PS s df n).length = df.length := by
  have hmin : min n df.length = df.length := Nat.min_eq_right (Nat.le_of_lt h)
  unfold sampledRows sampledIdx
  rw [hmin]
  refine ⟨PS.pick_length df.length df.length s.random_state le_rfl,
    PS.pick_nodup df.length df.length s.random_state le_rfl, ?_⟩
  rw [filterMap_getElem_length df _
    (PS.pick_lt df.length df.length s.random_state le_rfl)]
  exact PS.pick_length df.length df.length s.random_state le_rfl

theorem claim8_witness :
    ([r1].length < 2) ∧
    (sampledIdx toyPS ⟨1⟩ [r1] 2).length = [r1].length ∧
    (sampledIdx toyPS ⟨1⟩ [r1] 2).Nodup ∧
    (sampledRows toyPS ⟨1⟩ [r1] 2).length = [r1].length :=
  ⟨by decide, claim8 toyPS ⟨1⟩ [r1] 2 (by decide)⟩

/-- C4 counterexample: on a concrete population and non-empty sample,
the distributions dictionary returned by `analyze_distribution`
contains exactly the `rating_stats` and `popularity_stats` entries —
there is no entry for rating deviation, so the claim that statistics
are computed for all three tracked attributes is false. -/
theorem claim4_cex :
    (analyze_distribution [p1] [exB0]).map (fun l => l.map Prod.fst) =
      .ok ["rating_stats", "popularity_stats"] := by decide

/-- C4 amended: for any population and any non-empty sample, both
analyzers return pairs of `describe()` summaries (population vs.
sample) for exactly two of the tracked attributes — rating and
popularity; rating deviation is collected into the sample frame but no
statistics are computed for it. -/
theorem claim4 (popB : List PuzzleRow) (popR : List SingleMoveRow)
    (exs : List Example) (h : exs ≠ []) :
    analyze_distribution popB exs =
      .ok [("rating_stats",
             { population := describe (popB.map (fun r => r.Rating))
               sample := describe (exs.map (fun e => e.metadata.rating)) }),
           ("popularity_stats",
             { population := describe (popB.map (fun r => r.Popularity))
               sample :=
                 describe (exs.map (fun e => e.metadata.popularity)) })] ∧
    analyze_sample_distribution popR exs =
      .ok [("rating_stats",
             { population := describe (popR.map (fun r => r.Rating))
               sample := describe (exs.map (fun e => e.metadata.rating)) }),
           ("popularity_stats",
             { population := describe (popR.map (fun r => r.Popularity))
               sample :=
                 describe (exs.map (fun e => e.metadata.popularity)) })] := by
  obtain ⟨e, t, rfl⟩ := List.exists_cons_of_ne_nil h
  constructor
  · have hc1 : dfHasCol ((e :: t).map baseSampleRow) "rating" = true := rfl
    have hc2 : dfHasCol ((e :: t).map baseSampleRow) "popularity" = true :=
      rfl
    have h1 : dfDescribeCol ((e :: t).map baseSampleRow) "rating" =
        .ok (describe ((e :: t).map (fun x => x.metadata.rating))) := by
      unfold dfDescribeCol
      rw [if_pos hc1, colVals_base_rating]
    have h2 : dfDescribeCol ((e :: t).map baseSampleRow) "popularity" =
        .ok (describe ((e :: t).map (fun x => x.metadata.popularity))) := by
      unfold dfDescribeCol
      rw [if_pos hc2, colVals_base_popularity]
    simp only [analyze_distribution]
    rw [h1, h2]
    rfl
  · have hc1 : dfHasCol ((e :: t).map randomSampleRow) "rating" = true := rfl
    have hc2 : dfHasCol ((e :: t).map randomSampleRow) "popularity" = true :=
      rfl
    have h1 : dfDescribeCol ((e :: t).map randomSampleRow) "rating" =
        .ok (describe ((e :: t).map (fun x => x.metadata.rating))) := by
      unfold dfDescribeCol
      rw [if_pos hc1, colVals_random_rating]
    have h2 : dfDescribeCol ((e :: t).map randomSampleRow) "popularity" =
        .ok (describe ((e :: t).map (fun x => x.metadata.popularity))) := by
      unfold dfDescribeCol
      rw [if_pos hc2, colVals_random_popularity]
    simp only [analyze_sample_distribution]
    rw [h1, h2]
    rfl

theorem claim4_witness :
    ([exB0] ≠ []) ∧
    (analyze_distribution [p1] [exB0] =
      .ok [("rating_stats",
             { population := describe ([p1].map (fun r => r.Rating))
               sample :=
                 describe ([exB0].map (fun e => e.metadata.rating)) }),
           ("popularity_stats",
             { population := describe ([p1].map (fun r => r.Popularity))
               sample :=
                 describe ([exB0].map (fun e => e.metadata.popularity)) })] ∧
    analyze_sample_distribution [r1] [exB0] =
      .ok [("rating_stats",
             { population := describe ([r1].map (fun r => r.Rating))
               sample :=
                 describe ([exB0].map (fun e => e.metadata.rating)) }),
           ("popularity_stats",
             { population := describe ([r1].map (fun r => r.Popularity))
               sample :=
                 describe ([exB0].map (fun e => e.metadata.popularity)) })]) :=
  ⟨by decide, claim4 [p1] [r1] [exB0] (by decide)⟩

/-- C7 counterexample: `analyze_distribution` on an empty sample list
does not return a report: the sample frame built from zero rows has no
columns at all, so selecting the rating column raises a `KeyError`. -/
theorem claim7_cex :
    analyze_distribution [p1] [] = .error "KeyError: rating" := by decide

/-- C7 amended: for every population, `analyze_distribution` called
with an empty list of sampled examples raises (a `KeyError` for the
missing rating column of the column-less empty sample frame) instead of
returning a report with an empty sample side. -/
theorem claim7 (pop : List PuzzleRow) :
    analyze_distribution pop [] = .error "KeyError: rating" := rfl
